import Mathlib

/-!
Shallow embedding of the intel-8080-emulation repository (Rust), covering
the emulator core (src/Rust/emulator/src/emulator.rs) and the linear
disassembler walk (src/Rust/disassembler/src/disassembler.rs).

Machine integers are modelled as Nat with explicit wrapping (% 256 for u8
casts and wrapping ops, % 65536 for u16).  A Rust operation that can panic
at runtime (indexing a Vec out of bounds, looking up an unknown register
name, an overflowing checked + or - on u16/u8) is modelled in the Option
monad: none is the panic.  Rust wrapping_add / wrapping_sub are the defined
wraps and are modelled with the explicit modulus.
-/

/-- u8 wrapping addition (Rust wrapping_add on u8). -/
def wadd8 (x y : Nat) : Nat := (x + y) % 256

/-- u8 wrapping subtraction (Rust wrapping_sub on u8). -/
def wsub8 (x y : Nat) : Nat := (x + 256 - y % 256) % 256

/-- u16 wrapping addition (Rust wrapping_add on u16). -/
def wadd16 (x y : Nat) : Nat := (x + y) % 65536

/-- u16 wrapping subtraction (Rust wrapping_sub on u16). -/
def wsub16 (x y : Nat) : Nat := (x + 65536 - y % 65536) % 65536

/-- u8 left shift: shifted-out bits are discarded, as for Rust shl on u8. -/
def shl8 (x n : Nat) : Nat := (x <<< n) % 256

/-- Rust checked u8 addition: a plain + that panics (none) on overflow. -/
def checked_add_u8 (x y : Nat) : Option Nat :=
  if x + y ≤ 255 then some (x + y) else none

/-- Rust checked u16 addition: a plain + that panics (none) on overflow. -/
def checked_add_u16 (x y : Nat) : Option Nat :=
  if x + y ≤ 65535 then some (x + y) else none

/-- Rust checked u16 subtraction: a plain - that panics (none) on underflow. -/
def checked_sub_u16 (x y : Nat) : Option Nat :=
  if y ≤ x then some (x - y) else none

/-- Indexed store into the memory vector: self.mem[i] = v.  Out of bounds
panics (none), as Rust Vec indexing does. -/
def memWrite (m : List Nat) (i v : Nat) : Option (List Nat) :=
  if i < m.length then some (m.set i v) else none

/-- The five CPU flags (struct FlagRegister). -/
structure FlagRegister where
  sign : Bool
  zero : Bool
  aux_carry : Bool
  parity : Bool
  carry : Bool
deriving DecidableEq

/-- The register file (struct Registers).  a..l are u8, sp is u16, pc is
usize; all modelled as Nat. -/
structure Registers where
  a : Nat
  f : FlagRegister
  b : Nat
  c : Nat
  d : Nat
  e : Nat
  h : Nat
  l : Nat
  sp : Nat
  pc : Nat
deriving DecidableEq

/-- The CPU (struct Intel8080): registers, memory vector, halt latch,
interrupt latch. -/
structure Intel8080 where
  registers : Registers
  mem : List Nat
  halted : Bool
  int : Bool
deriving DecidableEq

/-- FlagRegister::check_parity: xor-fold of the u8, true when the number of
one bits is even. -/
def FlagRegister.check_parity (_self : FlagRegister) (val : Nat) : Bool :=
  let v1 := val ^^^ (val >>> 4)
  let v2 := v1 ^^^ (v1 >>> 2)
  let v3 := v2 ^^^ (v2 >>> 1)
  v3 &&& 0b00000001 == 0

/-- FlagRegister::set_artihmetic_flags (sic): sign from bit 7, zero from
the value, parity from check_parity.  carry and aux_carry untouched. -/
def FlagRegister.set_artihmetic_flags (self : FlagRegister) (val : Nat) : FlagRegister :=
  { self with
    sign := val >>> 7 == 1,
    zero := val == 0,
    parity := self.check_parity val }

/-- FlagRegister::set_flags: decode the PSW low byte into the five flags
(bits 7,6,4,2,0); reserved bits ignored. -/
def FlagRegister.set_flags (_self : FlagRegister) (val : Nat) : FlagRegister :=
  { sign      := (val >>> 7) &&& 0x1 == 1,
    zero      := (val >>> 6) &&& 0x1 == 1,
    aux_carry := (val >>> 4) &&& 0x1 == 1,
    parity    := (val >>> 2) &&& 0x1 == 1,
    carry     :=  val        &&& 0x1 == 1 }

/-- FlagRegister::get_flags: encode the five flags into the PSW low byte,
bit5=0, bit3=0, bit1=1. -/
def FlagRegister.get_flags (self : FlagRegister) : Nat :=
  shl8 (cond self.sign 1 0) 7 |||
  shl8 (cond self.zero 1 0) 6 |||
  shl8 0x0 5 |||
  shl8 (cond self.aux_carry 1 0) 4 |||
  shl8 0x0 3 |||
  shl8 (cond self.parity 1 0) 2 |||
  shl8 0x1 1 |||
  cond self.carry 1 0

/-- Registers::get_reg_pair; an unknown pair name panics (none). -/
def Registers.get_reg_pair (self : Registers) (pair : String) : Option Nat :=
  if pair = "BC" then some (self.b <<< 8 ||| self.c)
  else if pair = "DE" then some (self.d <<< 8 ||| self.e)
  else if pair = "HL" then some (self.h <<< 8 ||| self.l)
  else none

/-- Registers::set_reg_pair; high register gets (val >> 8) as u8, low
register gets val as u8; an unknown pair name panics (none). -/
def Registers.set_reg_pair (self : Registers) (reg_pair : String) (val : Nat) : Option Registers :=
  if reg_pair = "BC" then some { self with b := (val >>> 8) % 256, c := val % 256 }
  else if reg_pair = "DE" then some { self with d := (val >>> 8) % 256, e := val % 256 }
  else if reg_pair = "HL" then some { self with h := (val >>> 8) % 256, l := val % 256 }
  else none

/-- Registers::get_reg; an unknown register name panics (none). -/
def Registers.get_reg (self : Registers) (reg : String) : Option Nat :=
  if reg = "B" then some self.b
  else if reg = "C" then some self.c
  else if reg = "D" then some self.d
  else if reg = "E" then some self.e
  else if reg = "H" then some self.h
  else if reg = "L" then some self.l
  else if reg = "A" then some self.a
  else none

/-- Registers::set_reg; an unknown register name panics (none). -/
def Registers.set_reg (self : Registers) (reg_name : String) (val : Nat) : Option Registers :=
  if reg_name = "B" then some { self with b := val }
  else if reg_name = "C" then some { self with c := val }
  else if reg_name = "D" then some { self with d := val }
  else if reg_name = "E" then some { self with e := val }
  else if reg_name = "H" then some { self with h := val }
  else if reg_name = "L" then some { self with l := val }
  else if reg_name = "A" then some { self with a := val }
  else none

/-- Registers::get_psw: A as high byte, encoded flags as low byte. -/
def Registers.get_psw (self : Registers) : Option Nat := do
  let a ← self.get_reg "A"
  pure (a <<< 8 ||| self.f.get_flags)

/-- Registers::set_psw: A from the high byte, flags decoded from the low
byte. -/
def Registers.set_psw (self : Registers) (val : Nat) : Option Registers := do
  let r ← self.set_reg "A" ((val >>> 8) % 256)
  pure { r with f := r.f.set_flags (val % 256) }

/-- Intel8080::advance_pc: pc is usize, plain Nat addition. -/
def Intel8080.advance_pc (self : Intel8080) (val : Nat) : Intel8080 :=
  { self with registers := { self.registers with pc := self.registers.pc + val } }

/-- Intel8080::get_word: two little-endian bytes at PC+1..PC+2 (pc=true) or
at SP..SP+1 (pc=false).  The sp index is cast to usize before the +1, so no
u16 overflow there; an out-of-bounds read panics (none). -/
def Intel8080.get_word (self : Intel8080) (pc : Bool) : Option Nat :=
  if pc then do
    let hi ← self.mem.get? (self.registers.pc + 2)
    let lo ← self.mem.get? (self.registers.pc + 1)
    pure (hi <<< 8 ||| lo)
  else do
    let hi ← self.mem.get? (self.registers.sp + 1)
    let lo ← self.mem.get? self.registers.sp
    pure (hi <<< 8 ||| lo)

/-- Intel8080::pop_stack: read the word at SP, then SP ← SP+2 (wrapping). -/
def Intel8080.pop_stack (self : Intel8080) : Option (Nat × Intel8080) := do
  let val ← self.get_word false
  pure (val, { self with registers := { self.registers with sp := wadd16 self.registers.sp 2 } })

/-- Intel8080::push_stack: SP ← SP-2 (wrapping), then mem[SP+1] ← high byte
and mem[SP] ← low byte.  The SP+1 here is a checked u16 addition in the
source (overflows when the new SP is 0xFFFF). -/
def Intel8080.push_stack (self : Intel8080) (val : Nat) : Option Intel8080 := do
  let sp := wsub16 self.registers.sp 2
  let hi_idx ← checked_add_u16 sp 1
  let m1 ← memWrite self.mem hi_idx ((val >>> 8) % 256)
  let m2 ← memWrite m1 sp (val % 256)
  pure { self with registers := { self.registers with sp := sp }, mem := m2 }

/-- Intel8080::nop. -/
def Intel8080.nop (self : Intel8080) : Intel8080 :=
  self.advance_pc 1

/-- Intel8080::lxi: load the immediate word into a register pair. -/
def Intel8080.lxi (self : Intel8080) (reg_pair : String) : Option Intel8080 := do
  let val ← self.get_word true
  let r ← self.registers.set_reg_pair reg_pair val
  pure (Intel8080.advance_pc { self with registers := r } 3)

/-- Intel8080::stax: store the accumulator at the address in a pair. -/
def Intel8080.stax (self : Intel8080) (reg_pair : String) : Option Intel8080 := do
  let mem_addr ← self.registers.get_reg_pair reg_pair
  let m ← memWrite self.mem mem_addr self.registers.a
  pure (Intel8080.advance_pc { self with mem := m } 1)

/-- Intel8080::inx: increment a register pair with u16 wrap. -/
def Intel8080.inx (self : Intel8080) (reg_pair : String) : Option Intel8080 := do
  let v ← self.registers.get_reg_pair reg_pair
  let r ← self.registers.set_reg_pair reg_pair (wadd16 v 1)
  pure (Intel8080.advance_pc { self with registers := r } 1)

/-- Intel8080::inr: increment a register; S/Z/P from the result, aux_carry
from the pre-increment lower nibble. -/
def Intel8080.inr (self : Intel8080) (reg_name : String) : Option Intel8080 := do
  let val ← self.registers.get_reg reg_name
  let incremented_val := wadd8 val 1
  let r ← self.registers.set_reg reg_name incremented_val
  let f1 := r.f.set_artihmetic_flags incremented_val
  let f2 := { f1 with aux_carry := decide ((val &&& 0xF) + 0x01 > 0x0F) }
  pure (Intel8080.advance_pc { self with registers := { r with f := f2 } } 1)

/-- Intel8080::dcr: decrement a register; S/Z/P from the result, aux_carry
clear exactly when the result's lower nibble is 0xF. -/
def Intel8080.dcr (self : Intel8080) (reg_name : String) : Option Intel8080 := do
  let v0 ← self.registers.get_reg reg_name
  let val := wsub8 v0 1
  let r ← self.registers.set_reg reg_name val
  let f1 := r.f.set_artihmetic_flags val
  let f2 := { f1 with aux_carry := decide ((val &&& 0xF) ≠ 0xF) }
  pure (Intel8080.advance_pc { self with registers := { r with f := f2 } } 1)

/-- Intel8080::mvi: move the immediate byte at PC+1 into a register. -/
def Intel8080.mvi (self : Intel8080) (reg_name : String) : Option Intel8080 := do
  let b ← self.mem.get? (self.registers.pc + 1)
  let r ← self.registers.set_reg reg_name b
  pure (Intel8080.advance_pc { self with registers := r } 2)

/-- Intel8080::dad: HL ← HL + pair (u32 sum truncated to u16), carry iff
the untruncated sum exceeds 0xFFFF. -/
def Intel8080.dad (self : Intel8080) (reg_pair : String) : Option Intel8080 := do
  let rp ← self.registers.get_reg_pair reg_pair
  let hl ← self.registers.get_reg_pair "HL"
  let val := rp + hl
  let r ← self.registers.set_reg_pair "HL" (val % 65536)
  let f := { r.f with carry := decide (val > 0xFFFF) }
  pure (Intel8080.advance_pc { self with registers := { r with f := f } } 1)

/-- Intel8080::ldax: load the accumulator from the address in a pair. -/
def Intel8080.ldax (self : Intel8080) (reg_pair : String) : Option Intel8080 := do
  let mem_addr ← self.registers.get_reg_pair reg_pair
  let b ← self.mem.get? mem_addr
  let r ← self.registers.set_reg "A" b
  pure (Intel8080.advance_pc { self with registers := r } 1)

/-- Intel8080::dcx: decrement a register pair.  The source uses the plain
checked u16 subtraction here (get_reg_pair(reg_pair) - 1), not
wrapping_sub, so the value 0x0000 underflows (none). -/
def Intel8080.dcx (self : Intel8080) (reg_pair : String) : Option Intel8080 := do
  let v ← self.registers.get_reg_pair reg_pair
  let v1 ← checked_sub_u16 v 1
  let r ← self.registers.set_reg_pair reg_pair v1
  pure (Intel8080.advance_pc { self with registers := r } 1)

/-- Intel8080::mov: copy a register to a register. -/
def Intel8080.mov (self : Intel8080) (dst src : String) : Option Intel8080 := do
  let v ← self.registers.get_reg src
  let r ← self.registers.set_reg dst v
  pure (Intel8080.advance_pc { self with registers := r } 1)

/-- Intel8080::mov_m: copy mem[HL] to a register. -/
def Intel8080.mov_m (self : Intel8080) (dst : String) : Option Intel8080 := do
  let addr ← self.registers.get_reg_pair "HL"
  let b ← self.mem.get? addr
  let r ← self.registers.set_reg dst b
  pure (Intel8080.advance_pc { self with registers := r } 1)

/-- Intel8080::mov_r: copy a register to mem[HL]. -/
def Intel8080.mov_r (self : Intel8080) (src : String) : Option Intel8080 := do
  let addr ← self.registers.get_reg_pair "HL"
  let v ← self.registers.get_reg src
  let m ← memWrite self.mem addr v
  pure (Intel8080.advance_pc { self with mem := m } 1)

/-- Intel8080::add: A ← A + val (u8 wrap); carry from the u16 sum,
aux_carry from the nibble sum. -/
def Intel8080.add (self : Intel8080) (val : Nat) : Option Intel8080 := do
  let reg_a ← self.registers.get_reg "A"
  let added_val := wadd8 reg_a val
  let r ← self.registers.set_reg "A" added_val
  let f1 := r.f.set_artihmetic_flags added_val
  let f2 := { f1 with carry := decide (reg_a + val > 0xff) }
  let f3 := { f2 with aux_carry := decide ((reg_a &&& 0xF) + (val &&& 0xF) > 0x0F) }
  pure (Intel8080.advance_pc { self with registers := { r with f := f3 } } 1)

/-- Intel8080::adc: A ← A + val + carry (u8 wrap). -/
def Intel8080.adc (self : Intel8080) (val : Nat) : Option Intel8080 := do
  let reg_a ← self.registers.get_reg "A"
  let carry := cond self.registers.f.carry 1 0
  let added_val := wadd8 (wadd8 reg_a val) carry
  let r ← self.registers.set_reg "A" added_val
  let f1 := r.f.set_artihmetic_flags added_val
  let f2 := { f1 with carry := decide (reg_a + val + carry > 0xff) }
  let f3 := { f2 with aux_carry := decide ((reg_a &&& 0xF) + (val &&& 0xF) + carry > 0x0F) }
  pure (Intel8080.advance_pc { self with registers := { r with f := f3 } } 1)

/-- Intel8080::sub: A ← A - val (u8 wrap); carry iff A < val; aux_carry iff
the signed nibble difference is non-negative. -/
def Intel8080.sub (self : Intel8080) (val : Nat) : Option Intel8080 := do
  let reg_a ← self.registers.get_reg "A"
  let subtracted_val := wsub8 reg_a val
  let r ← self.registers.set_reg "A" subtracted_val
  let f1 := r.f.set_artihmetic_flags subtracted_val
  let f2 := { f1 with carry := decide (reg_a < val) }
  let no_borrow := decide (((reg_a &&& 0x0F : Nat) : Int) - ((val &&& 0x0F : Nat) : Int) ≥ 0)
  let f3 := { f2 with aux_carry := no_borrow }
  pure (Intel8080.advance_pc { self with registers := { r with f := f3 } } 1)

/-- Intel8080::sbb: A ← A - val - carry (u8 wrap).  The carry test
reg_a < val + carry uses a checked u8 addition in the source (val = 0xFF
with carry set overflows, none). -/
def Intel8080.sbb (self : Intel8080) (val : Nat) : Option Intel8080 := do
  let reg_a ← self.registers.get_reg "A"
  let carry := cond self.registers.f.carry 1 0
  let subtracted_val := wsub8 (wsub8 reg_a val) carry
  let r ← self.registers.set_reg "A" subtracted_val
  let f1 := r.f.set_artihmetic_flags subtracted_val
  let vc ← checked_add_u8 val carry
  let f2 := { f1 with carry := decide (reg_a < vc) }
  let no_borrow := decide (((reg_a &&& 0x0F : Nat) : Int) - ((val &&& 0x0F : Nat) : Int) - (carry : Int) ≥ 0)
  let f3 := { f2 with aux_carry := no_borrow }
  pure (Intel8080.advance_pc { self with registers := { r with f := f3 } } 1)

/-- Intel8080::ana: A ← A AND val; carry cleared; S/Z/P from the result;
then aux_carry ← ((A_pre | val) & 0x08) == 1 — the source compares the
masked bit-3 value (0 or 8) with 1, so this is always false. -/
def Intel8080.ana (self : Intel8080) (val : Nat) : Option Intel8080 := do
  let reg_a ← self.registers.get_reg "A"
  let result := reg_a &&& val
  let f1 := { self.registers.f with carry := false }
  let f2 := f1.set_artihmetic_flags result
  let r ← { self.registers with f := f2 }.set_reg "A" result
  let f3 := { r.f with aux_carry := ((reg_a ||| val) &&& 0x08) == 1 }
  pure (Intel8080.advance_pc { self with registers := { r with f := f3 } } 1)

/-- Intel8080::xra: A ← A XOR val; carry and aux_carry cleared; S/Z/P from
the result. -/
def Intel8080.xra (self : Intel8080) (val : Nat) : Option Intel8080 := do
  let reg_a ← self.registers.get_reg "A"
  let result := reg_a ^^^ val
  let f1 := { self.registers.f with carry := false, aux_carry := false }
  let f2 := f1.set_artihmetic_flags result
  let r ← { self.registers with f := f2 }.set_reg "A" result
  pure (Intel8080.advance_pc { self with registers := r } 1)

/-- Intel8080::ora: A ← A OR val; carry and aux_carry cleared; S/Z/P from
the result. -/
def Intel8080.ora (self : Intel8080) (val : Nat) : Option Intel8080 := do
  let reg_a ← self.registers.get_reg "A"
  let result := reg_a ||| val
  let f1 := { self.registers.f with carry := false, aux_carry := false }
  let f2 := f1.set_artihmetic_flags result
  let r ← { self.registers with f := f2 }.set_reg "A" result
  pure (Intel8080.advance_pc { self with registers := r } 1)

/-- Intel8080::cmp: run sub (which already advances PC by 1), restore A,
then advance PC by 1 again — the combined PC advance is 2. -/
def Intel8080.cmp (self : Intel8080) (val : Nat) : Option Intel8080 := do
  let reg_a ← self.registers.get_reg "A"
  let s1 ← self.sub val
  let r ← s1.registers.set_reg "A" reg_a
  pure (Intel8080.advance_pc { s1 with registers := r } 1)

/-- Intel8080::ret: pop the stack into PC when the condition holds, else
advance PC by 1. -/
def Intel8080.ret (self : Intel8080) (condition : Bool) : Option Intel8080 :=
  if condition then do
    let p ← self.pop_stack
    pure { p.2 with registers := { p.2.registers with pc := p.1 } }
  else
    pure (self.advance_pc 1)

/-- Intel8080::pop: pop the stack into a register pair (or PSW). -/
def Intel8080.pop (self : Intel8080) (reg_pair : String) : Option Intel8080 := do
  let p ← self.pop_stack
  let r ←
    if reg_pair = "PSW" then p.2.registers.set_psw p.1
    else p.2.registers.set_reg_pair reg_pair p.1
  pure (Intel8080.advance_pc { p.2 with registers := r } 1)

/-- Intel8080::push: push a register pair (or PSW) onto the stack. -/
def Intel8080.push (self : Intel8080) (reg_pair : String) : Option Intel8080 := do
  let val ←
    if reg_pair = "PSW" then self.registers.get_psw
    else self.registers.get_reg_pair reg_pair
  let s1 ← self.push_stack val
  pure (s1.advance_pc 1)

/-- Intel8080::jmp: PC ← immediate word when the condition holds, else
advance PC by 3. -/
def Intel8080.jmp (self : Intel8080) (condition : Bool) : Option Intel8080 :=
  if condition then do
    let t ← self.get_word true
    pure { self with registers := { self.registers with pc := t } }
  else
    pure (self.advance_pc 3)

/-- Intel8080::call: when the condition holds, push the CURRENT pc (as
u16), then set PC from the word read at PC+1..PC+2 of the post-push state;
else advance PC by 3.  Note the source pushes pc, not pc+3. -/
def Intel8080.call (self : Intel8080) (condition : Bool) : Option Intel8080 :=
  if condition then do
    let s1 ← self.push_stack (self.registers.pc % 65536)
    let t ← s1.get_word true
    pure { s1 with registers := { s1.registers with pc := t } }
  else
    pure (self.advance_pc 3)

/-- Intel8080::rst: push the CURRENT pc (as u16), then PC ← mem[8*val] —
the source loads the byte stored at the vector address instead of jumping
to the address itself. -/
def Intel8080.rst (self : Intel8080) (val : Nat) : Option Intel8080 := do
  let s1 ← self.push_stack (self.registers.pc % 65536)
  let b ← s1.mem.get? (0x08 * val)
  pure { s1 with registers := { s1.registers with pc := b } }

set_option maxHeartbeats 3200000 in
/-- The match body of Intel8080::exec_opcode: dispatch on the fetched
opcode byte.  The Rust match on a u8 is exhaustive, so the final catch-all
(for Nat values above 0xFF, unrepresentable in the source) is unreachable. -/
def Intel8080.execByte (self : Intel8080) (b : Nat) : Option Intel8080 :=
  match b with
  | 0x00 => pure self.nop
  | 0x01 => self.lxi "BC"
  | 0x02 => self.stax "BC"
  | 0x03 => self.inx "BC"
  | 0x04 => self.inr "B"
  | 0x05 => self.dcr "B"
  | 0x06 => self.mvi "B"
  | 0x07 => do
    let val ← self.registers.get_reg "A"
    let f := { self.registers.f with carry := val >>> 7 == 1 }
    let shifted_val := shl8 val 1 ||| cond f.carry 1 0
    let r ← Registers.set_reg { self.registers with f := f } "A" shifted_val
    pure (Intel8080.advance_pc { self with registers := r } 1)
  | 0x08 => pure self.nop
  | 0x09 => self.dad "BC"
  | 0x0a => self.ldax "BC"
  | 0x0b => self.dcx "BC"
  | 0x0c => self.inr "C"
  | 0x0d => self.dcr "C"
  | 0x0e => self.mvi "C"
  | 0x0f => do
    let val ← self.registers.get_reg "A"
    let f := { self.registers.f with carry := val &&& 0x1 == 1 }
    let shifted_val := (val >>> 1) ||| shl8 (cond f.carry 1 0) 7
    let r ← Registers.set_reg { self.registers with f := f } "A" shifted_val
    pure (Intel8080.advance_pc { self with registers := r } 1)
  | 0x10 => pure self.nop
  | 0x11 => self.lxi "DE"
  | 0x12 => self.stax "DE"
  | 0x13 => self.inx "DE"
  | 0x14 => self.inr "D"
  | 0x15 => self.dcr "D"
  | 0x16 => self.mvi "D"
  | 0x17 => do
    let val ← self.registers.get_reg "A"
    let temp := cond self.registers.f.carry 1 0
    let f := { self.registers.f with carry := val >>> 7 == 1 }
    let shifted_val := shl8 val 1 ||| temp
    let r ← Registers.set_reg { self.registers with f := f } "A" shifted_val
    pure (Intel8080.advance_pc { self with registers := r } 1)
  | 0x18 => pure self.nop
  | 0x19 => self.dad "DE"
  | 0x1a => self.ldax "DE"
  | 0x1b => self.dcx "DE"
  | 0x1c => self.inr "E"
  | 0x1d => self.dcr "E"
  | 0x1e => self.mvi "E"
  | 0x1f => do
    let val ← self.registers.get_reg "A"
    let temp := cond self.registers.f.carry 1 0
    let f := { self.registers.f with carry := val &&& 0x1 == 1 }
    let shifted_val := (val >>> 1) ||| shl8 temp 7
    let r ← Registers.set_reg { self.registers with f := f } "A" shifted_val
    pure (Intel8080.advance_pc { self with registers := r } 1)
  | 0x20 => pure self.nop
  | 0x21 => self.lxi "HL"
  | 0x22 => do
    let h ← self.registers.get_reg "H"
    let l ← self.registers.get_reg "L"
    let addr ← self.get_word true
    let m1 ← memWrite self.mem addr l
    let hi_idx ← checked_add_u16 addr 1
    let m2 ← memWrite m1 hi_idx h
    pure (Intel8080.advance_pc { self with mem := m2 } 3)
  | 0x23 => self.inx "HL"
  | 0x24 => self.inr "H"
  | 0x25 => self.dcr "H"
  | 0x26 => self.mvi "H"
  | 0x27 => do
    let a0 ← self.registers.get_reg "A"
    let lower := a0 &&& 0xF
    let r1 ←
      if decide (lower > 9) || self.registers.f.aux_carry then do
        let f := { self.registers.f with aux_carry := decide (lower + 6 > 0xF) }
        let r ← Registers.set_reg { self.registers with f := f } "A" (wadd8 a0 0x6)
        pure r
      else pure self.registers
    let a1 ← r1.get_reg "A"
    let upper := a1 >>> 4
    let r2 ←
      if decide (upper > 9) || r1.f.carry then do
        let f := if decide (upper + 6 > 0xF) then { r1.f with carry := true } else r1.f
        let r ← Registers.set_reg { r1 with f := f } "A" (wadd8 a1 0x60)
        pure r
      else pure r1
    let a2 ← r2.get_reg "A"
    let f3 := r2.f.set_artihmetic_flags a2
    pure (Intel8080.advance_pc { self with registers := { r2 with f := f3 } } 1)
  | 0x28 => pure self.nop
  | 0x29 => self.dad "HL"
  | 0x2a => do
    let addr ← self.get_word true
    let b1 ← self.mem.get? addr
    let r1 ← self.registers.set_reg "L" b1
    let hi_idx ← checked_add_u16 addr 1
    let b2 ← self.mem.get? hi_idx
    let r2 ← r1.set_reg "H" b2
    pure (Intel8080.advance_pc { self with registers := r2 } 3)
  | 0x2b => self.dcx "HL"
  | 0x2c => self.inr "L"
  | 0x2d => self.dcr "L"
  | 0x2e => self.mvi "L"
  | 0x2f => do
    let a ← self.registers.get_reg "A"
    let r ← self.registers.set_reg "A" (a ^^^ 0xFF)
    pure (Intel8080.advance_pc { self with registers := r } 1)
  | 0x30 => pure self.nop
  | 0x31 => do
    let val ← self.get_word true
    pure (Intel8080.advance_pc { self with registers := { self.registers with sp := val } } 3)
  | 0x32 => do
    let addr ← self.get_word true
    let a ← self.registers.get_reg "A"
    let m ← memWrite self.mem addr a
    pure (Intel8080.advance_pc { self with mem := m } 3)
  | 0x33 =>
    pure (Intel8080.advance_pc
      { self with registers := { self.registers with sp := wadd16 self.registers.sp 1 } } 1)
  | 0x34 => do
    let addr ← self.registers.get_reg_pair "HL"
    let val ← self.mem.get? addr
    let incremented_val := wadd8 val 1
    let m ← memWrite self.mem addr incremented_val
    let f1 := self.registers.f.set_artihmetic_flags incremented_val
    let f2 := { f1 with aux_carry := decide ((val &&& 0xf) + 0x01 > 0x0f) }
    pure (Intel8080.advance_pc { self with mem := m, registers := { self.registers with f := f2 } } 1)
  | 0x35 => do
    let addr ← self.registers.get_reg_pair "HL"
    let v0 ← self.mem.get? addr
    let val := wsub8 v0 1
    let m ← memWrite self.mem addr val
    let f1 := self.registers.f.set_artihmetic_flags val
    let f2 := { f1 with aux_carry := decide ((val &&& 0xF) ≠ 0xF) }
    pure (Intel8080.advance_pc { self with mem := m, registers := { self.registers with f := f2 } } 1)
  | 0x36 => do
    let addr ← self.registers.get_reg_pair "HL"
    let v ← self.mem.get? (self.registers.pc + 1)
    let m ← memWrite self.mem addr v
    pure (Intel8080.advance_pc { self with mem := m } 2)
  | 0x37 =>
    pure (Intel8080.advance_pc
      { self with registers := { self.registers with f := { self.registers.f with carry := true } } } 1)
  | 0x38 => pure self.nop
  | 0x39 => do
    let hl ← self.registers.get_reg_pair "HL"
    let val := self.registers.sp + hl
    let f := { self.registers.f with carry := decide (val > 0xFFFF) }
    pure (Intel8080.advance_pc
      { self with registers := { self.registers with sp := val % 65536, f := f } } 1)
  | 0x3a => do
    let addr ← self.get_word true
    let v ← self.mem.get? addr
    let r ← self.registers.set_reg "A" v
    pure (Intel8080.advance_pc { self with registers := r } 3)
  | 0x3b =>
    pure (Intel8080.advance_pc
      { self with registers := { self.registers with sp := wsub16 self.registers.sp 1 } } 1)
  | 0x3c => self.inr "A"
  | 0x3d => self.dcr "A"
  | 0x3e => self.mvi "A"
  | 0x3f =>
    pure (Intel8080.advance_pc
      { self with registers :=
        { self.registers with f := { self.registers.f with carry := !self.registers.f.carry } } } 1)
  | 0x40 => pure self.nop
  | 0x41 => self.mov "B" "C"
  | 0x42 => self.mov "B" "D"
  | 0x43 => self.mov "B" "E"
  | 0x44 => self.mov "B" "H"
  | 0x45 => self.mov "B" "L"
  | 0x46 => self.mov_m "B"
  | 0x47 => self.mov "B" "A"
  | 0x48 => self.mov "C" "B"
  | 0x49 => pure self.nop
  | 0x4a => self.mov "C" "D"
  | 0x4b => self.mov "C" "E"
  | 0x4c => self.mov "C" "H"
  | 0x4d => self.mov "C" "L"
  | 0x4e => self.mov_m "C"
  | 0x4f => self.mov "C" "A"
  | 0x50 => self.mov "D" "B"
  | 0x51 => self.mov "D" "C"
  | 0x52 => pure self.nop
  | 0x53 => self.mov "D" "E"
  | 0x54 => self.mov "D" "H"
  | 0x55 => self.mov "D" "L"
  | 0x56 => self.mov_m "D"
  | 0x57 => self.mov "D" "A"
  | 0x58 => self.mov "E" "B"
  | 0x59 => self.mov "E" "C"
  | 0x5a => self.mov "E" "D"
  | 0x5b => pure self.nop
  | 0x5c => self.mov "E" "H"
  | 0x5d => self.mov "E" "L"
  | 0x5e => self.mov_m "E"
  | 0x5f => self.mov "E" "A"
  | 0x60 => self.mov "H" "B"
  | 0x61 => self.mov "H" "C"
  | 0x62 => self.mov "H" "D"
  | 0x63 => self.mov "H" "E"
  | 0x64 => pure self.nop
  | 0x65 => self.mov "H" "L"
  | 0x66 => self.mov_m "H"
  | 0x67 => self.mov "H" "A"
  | 0x68 => self.mov "L" "B"
  | 0x69 => self.mov "L" "C"
  | 0x6a => self.mov "L" "D"
  | 0x6b => self.mov "L" "E"
  | 0x6c => self.mov "L" "H"
  | 0x6d => pure self.nop
  | 0x6e => self.mov_m "L"
  | 0x6f => self.mov "L" "A"
  | 0x70 => self.mov_r "B"
  | 0x71 => self.mov_r "C"
  | 0x72 => self.mov_r "D"
  | 0x73 => self.mov_r "E"
  | 0x74 => self.mov_r "H"
  | 0x75 => self.mov_r "L"
  | 0x76 => pure (Intel8080.advance_pc { self with halted := true } 1)
  | 0x77 => self.mov_r "A"
  | 0x78 => self.mov "A" "B"
  | 0x79 => self.mov "A" "C"
  | 0x7a => self.mov "A" "D"
  | 0x7b => self.mov "A" "E"
  | 0x7c => self.mov "A" "H"
  | 0x7d => self.mov "A" "L"
  | 0x7e => self.mov_m "A"
  | 0x7f => pure self.nop
  | 0x80 => do let v ← self.registers.get_reg "B"; self.add v
  | 0x81 => do let v ← self.registers.get_reg "C"; self.add v
  | 0x82 => do let v ← self.registers.get_reg "D"; self.add v
  | 0x83 => do let v ← self.registers.get_reg "E"; self.add v
  | 0x84 => do let v ← self.registers.get_reg "H"; self.add v
  | 0x85 => do let v ← self.registers.get_reg "L"; self.add v
  | 0x86 => do
    let addr ← self.registers.get_reg_pair "HL"
    let v ← self.mem.get? addr
    self.add v
  | 0x87 => do let v ← self.registers.get_reg "A"; self.add v
  | 0x88 => do let v ← self.registers.get_reg "B"; self.adc v
  | 0x89 => do let v ← self.registers.get_reg "C"; self.adc v
  | 0x8a => do let v ← self.registers.get_reg "D"; self.adc v
  | 0x8b => do let v ← self.registers.get_reg "E"; self.adc v
  | 0x8c => do let v ← self.registers.get_reg "H"; self.adc v
  | 0x8d => do let v ← self.registers.get_reg "L"; self.adc v
  | 0x8e => do
    let addr ← self.registers.get_reg_pair "HL"
    let v ← self.mem.get? addr
    self.adc v
  | 0x8f => do let v ← self.registers.get_reg "A"; self.adc v
  | 0x90 => do let v ← self.registers.get_reg "B"; self.sub v
  | 0x91 => do let v ← self.registers.get_reg "C"; self.sub v
  | 0x92 => do let v ← self.registers.get_reg "D"; self.sub v
  | 0x93 => do let v ← self.registers.get_reg "E"; self.sub v
  | 0x94 => do let v ← self.registers.get_reg "H"; self.sub v
  | 0x95 => do let v ← self.registers.get_reg "L"; self.sub v
  | 0x96 => do
    let addr ← self.registers.get_reg_pair "HL"
    let v ← self.mem.get? addr
    self.sub v
  | 0x97 => do let v ← self.registers.get_reg "A"; self.sub v
  | 0x98 => do let v ← self.registers.get_reg "B"; self.sbb v
  | 0x99 => do let v ← self.registers.get_reg "C"; self.sbb v
  | 0x9a => do let v ← self.registers.get_reg "D"; self.sbb v
  | 0x9b => do let v ← self.registers.get_reg "E"; self.sbb v
  | 0x9c => do let v ← self.registers.get_reg "H"; self.sbb v
  | 0x9d => do let v ← self.registers.get_reg "L"; self.sbb v
  | 0x9e => do
    let addr ← self.registers.get_reg_pair "HL"
    let v ← self.mem.get? addr
    self.sbb v
  | 0x9f => do let v ← self.registers.get_reg "A"; self.sbb v
  | 0xa0 => do let v ← self.registers.get_reg "B"; self.ana v
  | 0xa1 => do let v ← self.registers.get_reg "C"; self.ana v
  | 0xa2 => do let v ← self.registers.get_reg "D"; self.ana v
  | 0xa3 => do let v ← self.registers.get_reg "E"; self.ana v
  | 0xa4 => do let v ← self.registers.get_reg "F"; self.ana v
  | 0xa5 => do let v ← self.registers.get_reg "L"; self.ana v
  | 0xa6 => do
    let addr ← self.registers.get_reg_pair "HL"
    let v ← self.mem.get? addr
    self.ana v
  | 0xa7 => do let v ← self.registers.get_reg "A"; self.ana v
  | 0xa8 => do let v ← self.registers.get_reg "B"; self.xra v
  | 0xa9 => do let v ← self.registers.get_reg "C"; self.xra v
  | 0xaa => do let v ← self.registers.get_reg "D"; self.xra v
  | 0xab => do let v ← self.registers.get_reg "E"; self.xra v
  | 0xac => do let v ← self.registers.get_reg "H"; self.xra v
  | 0xad => do let v ← self.registers.get_reg "L"; self.xra v
  | 0xae => do
    let addr ← self.registers.get_reg_pair "HL"
    let v ← self.mem.get? addr
    self.xra v
  | 0xaf => do let v ← self.registers.get_reg "A"; self.xra v
  | 0xb0 => do let v ← self.registers.get_reg "B"; self.ora v
  | 0xb1 => do let v ← self.registers.get_reg "C"; self.ora v
  | 0xb2 => do let v ← self.registers.get_reg "D"; self.ora v
  | 0xb3 => do let v ← self.registers.get_reg "E"; self.ora v
  | 0xb4 => do let v ← self.registers.get_reg "H"; self.ora v
  | 0xb5 => do let v ← self.registers.get_reg "L"; self.ora v
  | 0xb6 => do
    let addr ← self.registers.get_reg_pair "HL"
    let v ← self.mem.get? addr
    self.ora v
  | 0xb7 => do let v ← self.registers.get_reg "A"; self.ora v
  | 0xb8 => do let v ← self.registers.get_reg "B"; self.cmp v
  | 0xb9 => do let v ← self.registers.get_reg "C"; self.cmp v
  | 0xba => do let v ← self.registers.get_reg "D"; self.cmp v
  | 0xbb => do let v ← self.registers.get_reg "E"; self.cmp v
  | 0xbc => do let v ← self.registers.get_reg "H"; self.cmp v
  | 0xbd => do let v ← self.registers.get_reg "L"; self.cmp v
  | 0xbe => do
    let addr ← self.registers.get_reg_pair "HL"
    let v ← self.mem.get? addr
    self.cmp v
  | 0xbf => do let v ← self.registers.get_reg "A"; self.cmp v
  | 0xc0 => self.ret (!self.registers.f.zero)
  | 0xc1 => self.pop "BC"
  | 0xc2 => self.jmp (!self.registers.f.zero)
  | 0xc3 => self.jmp true
  | 0xc4 => self.call (!self.registers.f.zero)
  | 0xc5 => self.push "BC"
  | 0xc6 => do
    let v ← self.mem.get? (self.registers.pc + 1)
    let s1 ← self.add v
    pure (s1.advance_pc 1)
  | 0xc7 => self.rst 0
  | 0xc8 => self.ret self.registers.f.zero
  | 0xc9 => self.ret true
  | 0xca => self.jmp self.registers.f.zero
  | 0xcb => self.jmp true
  | 0xcc => self.call self.registers.f.zero
  | 0xcd => self.call true
  | 0xce => do
    let v ← self.mem.get? (self.registers.pc + 1)
    let s1 ← self.adc v
    pure (s1.advance_pc 1)
  | 0xcf => self.rst 1
  | 0xd0 => self.ret (!self.registers.f.carry)
  | 0xd1 => self.pop "DE"
  | 0xd2 => self.jmp (!self.registers.f.carry)
  | 0xd3 => pure (self.advance_pc 2)
  | 0xd4 => self.call (!self.registers.f.carry)
  | 0xd5 => self.push "DE"
  | 0xd6 => do
    let v ← self.mem.get? (self.registers.pc + 1)
    let s1 ← self.sub v
    pure (s1.advance_pc 1)
  | 0xd7 => self.rst 2
  | 0xd8 => self.ret self.registers.f.carry
  | 0xd9 => self.ret true
  | 0xda => self.jmp self.registers.f.carry
  | 0xdb => pure (self.advance_pc 2)
  | 0xdc => self.call self.registers.f.carry
  | 0xdd => self.call true
  | 0xde => do
    let v ← self.mem.get? (self.registers.pc + 1)
    let s1 ← self.sbb v
    pure (s1.advance_pc 1)
  | 0xdf => self.rst 3
  | 0xe0 => self.ret (!self.registers.f.parity)
  | 0xe1 => self.pop "HL"
  | 0xe2 => self.jmp (!self.registers.f.parity)
  | 0xe3 => do
    let mem_val ← self.get_word false
    let hl ← self.registers.get_reg_pair "HL"
    let r ← self.registers.set_reg_pair "HL" mem_val
    let m1 ← memWrite self.mem self.registers.sp (hl % 256)
    let hi_idx ← checked_add_u16 self.registers.sp 1
    let m2 ← memWrite m1 hi_idx ((hl >>> 8) % 256)
    pure (Intel8080.advance_pc { self with registers := r, mem := m2 } 1)
  | 0xe4 => self.call (!self.registers.f.parity)
  | 0xe5 => self.push "HL"
  | 0xe6 => do
    let v ← self.mem.get? (self.registers.pc + 1)
    let s1 ← self.ana v
    pure (s1.advance_pc 1)
  | 0xe7 => self.rst 4
  | 0xe8 => self.ret self.registers.f.parity
  | 0xe9 => do
    let hl ← self.registers.get_reg_pair "HL"
    pure (Intel8080.advance_pc { self with registers := { self.registers with pc := hl } } 1)
  | 0xea => self.jmp self.registers.f.parity
  | 0xeb => do
    let hl ← self.registers.get_reg_pair "HL"
    let de ← self.registers.get_reg_pair "DE"
    let r1 ← self.registers.set_reg_pair "HL" de
    let r2 ← r1.set_reg_pair "DE" hl
    pure (Intel8080.advance_pc { self with registers := r2 } 1)
  | 0xec => self.call self.registers.f.parity
  | 0xed => self.call true
  | 0xee => do
    let v ← self.mem.get? (self.registers.pc + 1)
    let s1 ← self.xra v
    pure (s1.advance_pc 1)
  | 0xef => self.rst 5
  | 0xf0 => self.ret (!self.registers.f.sign)
  | 0xf1 => self.pop "PSW"
  | 0xf2 => self.jmp (!self.registers.f.sign)
  | 0xf3 => pure (Intel8080.advance_pc { self with int := false } 1)
  | 0xf4 => self.call (!self.registers.f.sign)
  | 0xf5 => self.push "PSW"
  | 0xf6 => do
    let v ← self.mem.get? (self.registers.pc + 1)
    let s1 ← self.ora v
    pure (s1.advance_pc 1)
  | 0xf7 => self.rst 6
  | 0xf8 => self.ret self.registers.f.sign
  | 0xf9 => do
    let hl ← self.registers.get_reg_pair "HL"
    pure (Intel8080.advance_pc { self with registers := { self.registers with sp := hl } } 1)
  | 0xfa => self.jmp self.registers.f.sign
  | 0xfb => pure (Intel8080.advance_pc { self with int := true } 1)
  | 0xfc => self.call self.registers.f.sign
  | 0xfd => self.call true
  | 0xfe => do
    let v ← self.mem.get? (self.registers.pc + 1)
    let s1 ← self.cmp v
    pure (s1.advance_pc 1)
  | 0xff => self.rst 7
  | _ => none

/-- Intel8080::exec_opcode: fetch the byte at PC (a Vec index, so an
out-of-range PC panics) and dispatch on it. -/
def Intel8080.exec_opcode (self : Intel8080) : Option Intel8080 := do
  let b ← self.mem.get? self.registers.pc
  self.execByte b

namespace Disasm

/-- The opcodes whose disassembler arm sets opcode_offset = 3 (LXI,
SHLD/LHLD, STA/LDA, all Jcc/JMP/JMP*, all Ccc/CALL/CALL*), from the match
in disassembler.rs. -/
def threeByteOpcodes : List Nat :=
  [0x01, 0x11, 0x21, 0x31, 0x22, 0x2a, 0x32, 0x3a,
   0xc2, 0xc3, 0xc4, 0xca, 0xcb, 0xcc, 0xcd,
   0xd2, 0xd4, 0xda, 0xdc, 0xdd,
   0xe2, 0xe4, 0xea, 0xec, 0xed,
   0xf2, 0xf4, 0xfa, 0xfc, 0xfd]

/-- The opcodes whose disassembler arm sets opcode_offset = 2 (MVI, the
eight d8-immediate arithmetic/logic ops, OUT, IN), from the match in
disassembler.rs. -/
def twoByteOpcodes : List Nat :=
  [0x06, 0x0e, 0x16, 0x1e, 0x26, 0x2e, 0x36, 0x3e,
   0xc6, 0xce, 0xd3, 0xd6, 0xdb, 0xde, 0xe6, 0xee, 0xf6, 0xfe]

/-- match_opcode: reads bytes[pc] and dispatches.  A three-byte arm also
reads bytes[pc+2] and bytes[pc+1] for printing, a two-byte arm reads
bytes[pc+1]; any out-of-bounds read panics (none).  The mnemonic text
itself is not modelled; the returned value is opcode_offset. -/
def match_opcode (bytes : List Nat) (pc : Nat) : Option Nat := do
  let b ← bytes.get? pc
  if b ∈ threeByteOpcodes then do
    let _hi ← bytes.get? (pc + 2)
    let _lo ← bytes.get? (pc + 1)
    pure 3
  else if b ∈ twoByteOpcodes then do
    let _d ← bytes.get? (pc + 1)
    pure 2
  else
    pure 1

/-- Outcome of the disassemble loop: normal completion with the final
cursor, an out-of-bounds index (a Rust panic), or fuel exhaustion (a
modelling artifact only; adequate fuel never reaches it). -/
inductive WalkOutcome where
  | done (cursor : Nat) : WalkOutcome
  | oob : WalkOutcome
  | nofuel : WalkOutcome
deriving DecidableEq

/-- The loop in disassemble, one fuel unit per iteration:
i += match_opcode(bytes, i), breaking exactly when i == bytes.len() (the
check runs after the increment, so it is tested only between
iterations). -/
def walkAux (bytes : List Nat) (i fuel : Nat) : WalkOutcome :=
  match fuel with
  | 0 => WalkOutcome.nofuel
  | fuel1 + 1 =>
    match match_opcode bytes i with
    | none => WalkOutcome.oob
    | some off =>
      if i + off = bytes.length then WalkOutcome.done (i + off)
      else walkAux bytes (i + off) fuel1

/-- The loop of disassemble, started at cursor 0 with enough fuel for every
possible iteration (each successful iteration strictly advances the cursor,
and a cursor at or past the length cannot take a successful step). -/
def disassemble_walk (bytes : List Nat) : WalkOutcome :=
  walkAux bytes 0 (bytes.length + 1)

end Disasm

/-- The 24 conditional-branch opcodes: Rcc, Jcc, Ccc. -/
def condBranchOpcodes : List Nat :=
  [0xc0, 0xc2, 0xc4, 0xc8, 0xca, 0xcc,
   0xd0, 0xd2, 0xd4, 0xd8, 0xda, 0xdc,
   0xe0, 0xe2, 0xe4, 0xe8, 0xea, 0xec,
   0xf0, 0xf2, 0xf4, 0xf8, 0xfa, 0xfc]

/-- The branch condition the dispatch evaluates for each conditional
opcode: NZ/Z on the zero flag, NC/C on carry, PO/PE on parity, P/M on
sign (claim-statement apparatus mirroring the exec_opcode arms). -/
def branchCond (op : Nat) (f : FlagRegister) : Bool :=
  match op with
  | 0xc0 | 0xc2 | 0xc4 => !f.zero
  | 0xc8 | 0xca | 0xcc => f.zero
  | 0xd0 | 0xd2 | 0xd4 => !f.carry
  | 0xd8 | 0xda | 0xdc => f.carry
  | 0xe0 | 0xe2 | 0xe4 => !f.parity
  | 0xe8 | 0xea | 0xec => f.parity
  | 0xf0 | 0xf2 | 0xf4 => !f.sign
  | 0xf8 | 0xfa | 0xfc => f.sign
  | _ => false

/-- PC advance of a not-taken conditional branch: 1 for Rcc, 3 for
Jcc/Ccc (claim-statement apparatus). -/
def branchDelta (op : Nat) : Nat :=
  match op with
  | 0xc0 | 0xc8 | 0xd0 | 0xd8 | 0xe0 | 0xe8 | 0xf0 | 0xf8 => 1
  | _ => 3

/-- Test fixture: all five flags clear. -/
def flags0 : FlagRegister :=
  { sign := false, zero := false, aux_carry := false, parity := false, carry := false }

/-- Test fixture: zeroed register file. -/
def reg0 : Registers :=
  { a := 0, f := flags0, b := 0, c := 0, d := 0, e := 0, h := 0, l := 0, sp := 0, pc := 0 }

/-- Fixture C1: zeroed CPU with a 65 536-byte zero-initialized memory whose
byte 0 is opcode 0xA4 (ANA H). -/
def C1s : Intel8080 :=
  { registers := reg0, mem := (List.replicate 65536 0).set 0 0xa4,
    halted := false, int := false }

/-- Fixture C2: CALL 0x1234 at PC 0 with SP = 8. -/
def C2s : Intel8080 :=
  { registers := { reg0 with sp := 8 },
    mem := [0xcd, 0x34, 0x12, 0x00, 0x00, 0x00, 0x00, 0x00],
    halted := false, int := false }

/-- The state the interpreter produces from C2s: the pushed bytes
mem[6], mem[7] hold 0x00 0x00 — the address of the CALL itself, not the
return address 0x0003. -/
def C2s1 : Intel8080 :=
  { registers := { reg0 with sp := 6, pc := 0x1234 },
    mem := [0xcd, 0x34, 0x12, 0x00, 0x00, 0x00, 0x00, 0x00],
    halted := false, int := false }

/-- Fixture C3: RST 7 at PC 0, SP = 10, 64-byte memory with the vector
byte mem[0x38] = 0x12. -/
def C3s : Intel8080 :=
  { registers := { reg0 with sp := 10 },
    mem := ((List.replicate 64 0).set 0 0xff).set 56 0x12,
    halted := false, int := false }

/-- Fixture C4: CMP B at PC 0 with A = 5, B = 3. -/
def C4s : Intel8080 :=
  { registers := { reg0 with a := 5, b := 3 }, mem := [0xb8],
    halted := false, int := false }

/-- The state the interpreter produces from C4s: A preserved and SUB
flags, but PC = 2 after the one-byte CMP. -/
def C4s1 : Intel8080 :=
  { registers := { reg0 with a := 5, b := 3, pc := 2, f := { flags0 with aux_carry := true } },
    mem := [0xb8], halted := false, int := false }

/-- Fixture C5: DAD SP at PC 0 with HL = 0x0001 and SP = 2. -/
def C5s : Intel8080 :=
  { registers := { reg0 with l := 1, sp := 2 }, mem := [0x39],
    halted := false, int := false }

/-- The state the interpreter produces from C5s: the 16-bit sum 3 lands in
SP; HL is untouched. -/
def C5s1 : Intel8080 :=
  { registers := { reg0 with l := 1, sp := 3, pc := 1 }, mem := [0x39],
    halted := false, int := false }

/-- Fixture C6: ANA A at PC 0 with A = 0x08 (bit 3 set). -/
def C6s : Intel8080 :=
  { registers := { reg0 with a := 8 }, mem := [0xa7],
    halted := false, int := false }

/-- The state the interpreter produces from C6s: aux_carry is false even
though bit 3 of (A_pre | operand) is set. -/
def C6s1 : Intel8080 :=
  { registers := { reg0 with a := 8, pc := 1 }, mem := [0xa7],
    halted := false, int := false }

/-- Fixture C7: DCX B at PC 0 with BC = 0x0000. -/
def C7s : Intel8080 :=
  { registers := reg0, mem := [0x0b], halted := false, int := false }

/-- Fixture C10: RNZ at PC 0 with the zero flag set, so the branch
condition is false. -/
def C10s : Intel8080 :=
  { registers := { reg0 with f := { flags0 with zero := true } }, mem := [0xc0],
    halted := false, int := false }

/-- Unfolding exec_opcode when the fetched opcode byte is known. -/
theorem exec_opcode_fetch (s : Intel8080) (b : Nat)
    (h : s.mem.get? s.registers.pc = some b) :
    s.exec_opcode = s.execByte b := by
  unfold Intel8080.exec_opcode
  rw [h]
  rfl

/-- A conditional RET whose condition is false only advances PC by 1. -/
theorem ret_of_cond_false (s : Intel8080) (c : Bool) (h : c = false) :
    s.ret c = some (s.advance_pc 1) := by
  subst h; rfl

/-- A conditional JMP whose condition is false only advances PC by 3. -/
theorem jmp_of_cond_false (s : Intel8080) (c : Bool) (h : c = false) :
    s.jmp c = some (s.advance_pc 3) := by
  subst h; rfl

/-- A conditional CALL whose condition is false only advances PC by 3. -/
theorem call_of_cond_false (s : Intel8080) (c : Bool) (h : c = false) :
    s.call c = some (s.advance_pc 3) := by
  subst h; rfl

/-- Claim C8: for every combination of the five flag booleans, decoding
the encoded PSW-low byte restores exactly the same five flags:
set_flags (get_flags f) = f (for any receiver, since set_flags assigns
every field). -/
theorem C8_set_get_flags_roundtrip (f g : FlagRegister) :
    g.set_flags f.get_flags = f := by
  rcases f with ⟨fs, fz, fx, fp, fc⟩
  cases fs <;> cases fz <;> cases fx <;> cases fp <;> cases fc <;> rfl

/-- Claim C1 (code bug): from a valid zeroed CPU state with a 65 536-byte
zero-initialized memory, executing opcode byte 0xA4 (ANA H) fails at
runtime: the dispatch arm asks the register file for "F", which panics
with "Unknown reg F".  The spec's design notes list this defect (the
operand should be H). -/
theorem C1_step_0xa4_fails : C1s.exec_opcode = none := rfl

/-- Claim C2 (code bug): CALL at PC 0 with SP 8 pushes the CALL
instruction's own address 0x0000 (bytes mem[6] = 0x00, mem[7] = 0x00) and
then jumps to 0x1234 — the pushed word is PC, not the return address
PC+3 = 0x0003 required by the claim and by the spec's CALL rule. -/
theorem C2_call_pushes_pc : C2s.exec_opcode = some C2s1 ∧ C2s1.mem.get? 6 = some 0x00 :=
  ⟨rfl, rfl⟩

/-- Claim C3 (code bug): RST 7 at PC 0 with SP 10 pushes 0x0000 (PC, not
PC+1 = 0x0001) and then sets PC to mem[0x38] = 0x12 — it reads the byte
stored at the vector address instead of jumping to the address 0x38. -/
theorem C3_rst_loads_vector_byte :
    (C3s.exec_opcode.map fun s1 => s1.registers.pc) = some 0x12 ∧
    (C3s.exec_opcode.map fun s1 => s1.registers.sp) = some 8 ∧
    (C3s.exec_opcode.bind fun s1 => s1.mem.get? 8) = some 0x00 :=
  ⟨rfl, rfl, rfl⟩

/-- Claim C4 (code bug): CMP B with A = 5, B = 3 preserves A and produces
exactly the SUB flags, but advances PC to 2, not 1: cmp calls sub (which
already advances PC by 1) and then advances PC again.  CPI likewise ends
at PC+3 instead of PC+2. -/
theorem C4_cmp_advances_two : C4s.exec_opcode = some C4s1 ∧ C4s1.registers.pc = 2 :=
  ⟨rfl, rfl⟩

/-- Claim C5 (code bug): DAD SP with HL = 1, SP = 2 stores the 16-bit sum
3 into SP and leaves HL = 1, instead of storing it into HL as the claim
(and the arm's own comment) requires. -/
theorem C5_dad_sp_writes_sp :
    C5s.exec_opcode = some C5s1 ∧ C5s1.registers.sp = 3 ∧
    C5s1.registers.h = 0 ∧ C5s1.registers.l = 1 :=
  ⟨rfl, rfl, rfl, rfl⟩

/-- Claim C6 (code bug): ANA A with A = 0x08 leaves aux_carry false even
though bit 3 of (A_pre | operand) is set: the source compares the masked
value (0 or 8) with 1, so the flag can never be set.  The spec's design
notes list this defect. -/
theorem C6_ana_aux_carry_always_false :
    C6s.exec_opcode = some C6s1 ∧ C6s1.registers.f.aux_carry = false :=
  ⟨rfl, rfl⟩

/-- Claim C7 (code bug): DCX B at BC = 0x0000 fails: the source decrements
with the plain checked u16 subtraction (not wrapping_sub as INX and
DCX SP use), so 0x0000 - 1 underflows instead of wrapping to 0xFFFF. -/
theorem C7_dcx_underflows_at_zero : C7s.exec_opcode = none := rfl

set_option maxRecDepth 4000 in
set_option maxHeartbeats 3200000 in
/-- Claim C10: whenever the fetched opcode is a conditional jump, call or
return and its branch condition evaluates to false, the step only advances
PC (by 3 for Jcc and Ccc, by 1 for Rcc); every register, every flag, SP
and the whole memory are unchanged. -/
theorem C10_cond_false_only_pc (s : Intel8080) (op : Nat)
    (hop : op ∈ condBranchOpcodes)
    (hfetch : s.mem.get? s.registers.pc = some op)
    (hcond : branchCond op s.registers.f = false) :
    s.exec_opcode = some (s.advance_pc (branchDelta op)) := by
  simp only [condBranchOpcodes, List.mem_cons, List.not_mem_nil, or_false] at hop
  rcases hop with rfl | rfl | rfl | rfl | rfl | rfl | rfl | rfl | rfl | rfl | rfl | rfl |
    rfl | rfl | rfl | rfl | rfl | rfl | rfl | rfl | rfl | rfl | rfl | rfl
  · exact (exec_opcode_fetch s _ hfetch).trans (ret_of_cond_false s _ hcond)
  · exact (exec_opcode_fetch s _ hfetch).trans (jmp_of_cond_false s _ hcond)
  · exact (exec_opcode_fetch s _ hfetch).trans (call_of_cond_false s _ hcond)
  · exact (exec_opcode_fetch s _ hfetch).trans (ret_of_cond_false s _ hcond)
  · exact (exec_opcode_fetch s _ hfetch).trans (jmp_of_cond_false s _ hcond)
  · exact (exec_opcode_fetch s _ hfetch).trans (call_of_cond_false s _ hcond)
  · exact (exec_opcode_fetch s _ hfetch).trans (ret_of_cond_false s _ hcond)
  · exact (exec_opcode_fetch s _ hfetch).trans (jmp_of_cond_false s _ hcond)
  · exact (exec_opcode_fetch s _ hfetch).trans (call_of_cond_false s _ hcond)
  · exact (exec_opcode_fetch s _ hfetch).trans (ret_of_cond_false s _ hcond)
  · exact (exec_opcode_fetch s _ hfetch).trans (jmp_of_cond_false s _ hcond)
  · exact (exec_opcode_fetch s _ hfetch).trans (call_of_cond_false s _ hcond)
  · exact (exec_opcode_fetch s _ hfetch).trans (ret_of_cond_false s _ hcond)
  · exact (exec_opcode_fetch s _ hfetch).trans (jmp_of_cond_false s _ hcond)
  · exact (exec_opcode_fetch s _ hfetch).trans (call_of_cond_false s _ hcond)
  · exact (exec_opcode_fetch s _ hfetch).trans (ret_of_cond_false s _ hcond)
  · exact (exec_opcode_fetch s _ hfetch).trans (jmp_of_cond_false s _ hcond)
  · exact (exec_opcode_fetch s _ hfetch).trans (call_of_cond_false s _ hcond)
  · exact (exec_opcode_fetch s _ hfetch).trans (ret_of_cond_false s _ hcond)
  · exact (exec_opcode_fetch s _ hfetch).trans (jmp_of_cond_false s _ hcond)
  · exact (exec_opcode_fetch s _ hfetch).trans (call_of_cond_false s _ hcond)
  · exact (exec_opcode_fetch s _ hfetch).trans (ret_of_cond_false s _ hcond)
  · exact (exec_opcode_fetch s _ hfetch).trans (jmp_of_cond_false s _ hcond)
  · exact (exec_opcode_fetch s _ hfetch).trans (call_of_cond_false s _ hcond)

/-- Witness for C10: RNZ with the zero flag set only advances PC by 1. -/
theorem C10_cond_false_only_pc_witness :
    C10s.exec_opcode = some (C10s.advance_pc (branchDelta 0xc0)) :=
  C10_cond_false_only_pc C10s 0xc0 (by decide) (by rfl) (by rfl)

/-- A successful list lookup implies the index is in range. -/
theorem get?_some_lt {l : List Nat} {n a : Nat} (h : l.get? n = some a) : n < l.length := by
  by_contra hn
  rw [List.get?_len_le (Nat.le_of_not_lt hn)] at h
  exact Option.noConfusion h

/-- A successful match_opcode returns opcode_offset 1, 2 or 3, and its
opcode read was in range. -/
theorem match_opcode_mem {bytes : List Nat} {pc off : Nat}
    (h : Disasm.match_opcode bytes pc = some off) :
    (off = 1 ∨ off = 2 ∨ off = 3) ∧ pc < bytes.length := by
  unfold Disasm.match_opcode at h
  rcases Option.bind_eq_some.mp h with ⟨b, hb, h1⟩
  refine ⟨?_, get?_some_lt hb⟩
  split_ifs at h1 with h3 h2
  · rcases Option.bind_eq_some.mp h1 with ⟨x, _, h4⟩
    rcases Option.bind_eq_some.mp h4 with ⟨y, _, h5⟩
    simp only [Option.pure_def, Option.some.injEq] at h5
    omega
  · rcases Option.bind_eq_some.mp h1 with ⟨x, _, h4⟩
    simp only [Option.pure_def, Option.some.injEq] at h4
    omega
  · simp only [Option.pure_def, Option.some.injEq] at h1
    omega

/-- Normal completion of the disassembler loop lands exactly on the image
length, at any start cursor and with any fuel. -/
theorem walkAux_done_eq_length {bytes : List Nat} :
    ∀ {fuel i n : Nat},
      Disasm.walkAux bytes i fuel = Disasm.WalkOutcome.done n → n = bytes.length := by
  intro fuel
  induction fuel with
  | zero => intro i n h; exact Disasm.WalkOutcome.noConfusion h
  | succ fuel1 ih =>
    intro i n h
    simp only [Disasm.walkAux] at h
    rcases hm : Disasm.match_opcode bytes i with _ | off <;> simp only [hm] at h
    · exact Disasm.WalkOutcome.noConfusion h
    · split_ifs at h with heq
      · cases h; exact heq
      · exact ih h

/-- With fuel exceeding the remaining distance to the image length the
loop never exhausts it: every successful iteration starts strictly inside
the image and advances the cursor by at least 1. -/
theorem walkAux_ne_nofuel {bytes : List Nat} :
    ∀ {fuel i : Nat},
      bytes.length - i < fuel → Disasm.walkAux bytes i fuel ≠ Disasm.WalkOutcome.nofuel := by
  intro fuel
  induction fuel with
  | zero => intro i h; exact absurd h (Nat.not_lt_zero _)
  | succ fuel1 ih =>
    intro i h
    simp only [Disasm.walkAux]
    rcases hm : Disasm.match_opcode bytes i with _ | off <;> simp only [hm]
    · exact fun hcon => Disasm.WalkOutcome.noConfusion hcon
    · obtain ⟨hoff, hlt⟩ := match_opcode_mem hm
      split_ifs with heq
      · exact fun hcon => Disasm.WalkOutcome.noConfusion hcon
      · exact ih (by omega)

/-- Claim C9, amended: each iteration advances the cursor by the matched
opcode_offset, which is always 1, 2 or 3; the walk always terminates (it
never runs out of the fuel bound, so the loop takes finitely many
iterations); and when it completes normally the final cursor equals the
image length exactly.  When a multi-byte instruction begins within the
last two bytes of the image (or the image is empty), it terminates by an
out-of-bounds index instead of completing normally. -/
theorem C9_walk_stops_at_length (bytes : List Nat) :
    Disasm.disassemble_walk bytes ≠ Disasm.WalkOutcome.nofuel ∧
    (∀ n, Disasm.disassemble_walk bytes = Disasm.WalkOutcome.done n → n = bytes.length) ∧
    (∀ pc off, Disasm.match_opcode bytes pc = some off → off = 1 ∨ off = 2 ∨ off = 3) := by
  refine ⟨walkAux_ne_nofuel (by omega), ?_, ?_⟩
  · intro n h
    exact walkAux_done_eq_length h
  · intro pc off h
    exact (match_opcode_mem h).1

/-- Witness for C9: the spec's scenario-5 ROM C3 34 12 00 walks to
completion, so the amended theorem pins its final cursor 4 to the image
length; and the offset matched at 0 (a JMP, 3) is one of 1, 2, 3. -/
theorem C9_walk_stops_at_length_witness :
    (4 = List.length ([0xc3, 0x34, 0x12, 0x00] : List Nat)) ∧ (3 = 1 ∨ 3 = 2 ∨ 3 = 3) :=
  ⟨(C9_walk_stops_at_length [0xc3, 0x34, 0x12, 0x00]).2.1 4 (by decide),
   (C9_walk_stops_at_length [0xc3, 0x34, 0x12, 0x00]).2.2 0 3 (by decide)⟩

/-- Claim C9 counterexample: on the one-byte image [0x01] the three-byte
instruction LXI B begins within the last two bytes; the walk hits the
out-of-bounds operand read bytes[pc+2] (a Rust index panic) and never
completes normally, contradicting the claim that the walk stops exactly
when the cursor equals the image length. -/
theorem C9_walk_counterexample :
    Disasm.disassemble_walk [0x01] = Disasm.WalkOutcome.oob ∧
    Disasm.disassemble_walk [0x01] ≠ Disasm.WalkOutcome.done 1 := by
  decide
